import Mathlib

/-!
Verification of `send_mail.py`, a one-shot CLI that parses eight required
flags, builds a MIME multipart message with one plain-text part, and sends it
over an SSL SMTP session inside a try/except that swallows every exception.

The script is embedded shallowly:
  * `Args` is the `args` namespace produced by `argparse` (lines 8-17);
  * `parseArgs` models the parse: every flag is required, `--smtp_port` must
    convert to an integer, any failure is a usage error (exit status 2,
    usage text on stderr, no network activity);
  * `MIMEMessage`, `buildMsg` model lines 20-24 (MIMEMultipart construction,
    header assignment, MIMEText attachment);
  * `MIMEMessage.as_string` models `msg.as_string()` (line 30); the email
    generator chooses the multipart boundary from the random number generator
    at flatten time, so serialization takes the drawn boundary as an argument
    and `makeBoundary` mirrors the `_make_boundary` format;
  * `Behavior` is an oracle for the environment: which of the five fallible
    operations (message construction, `SMTP_SSL`, `login`, `sendmail`,
    `quit`) raises, and with what exception text;
  * `transportPhase` models the try block (lines 28-31): the four network
    operations run in order, stopping at the first raised exception;
  * `runProgram` is the whole process: exit status, stdout lines, stderr
    lines (one list entry per write), and the trace of network operations.
-/

/-- The parsed configuration (the `args` object, lines 8-17). -/
structure Args where
  smtp_server : String
  smtp_port : Int
  smtp_user : String
  smtp_password : String
  from_email : String
  to_email : String
  subject : String
  body : String
deriving DecidableEq

/-- Look up the value supplied for a named flag on the command line, which is
given as flag/value pairs. -/
def lookupFlag (flag : String) (argv : List (String × String)) : Option String :=
  (argv.find? (fun p => p.1 == flag)).map Prod.snd

/-- The value of a decimal digit character, if it is one. -/
def digitVal (c : Char) : Option Nat :=
  if 48 ≤ c.toNat ∧ c.toNat ≤ 57 then some (c.toNat - 48) else none

/-- Accumulate a run of decimal digits; fails on a non-digit. -/
def digitsToNat : List Char → Nat → Option Nat
  | [], acc => some acc
  | c :: cs, acc =>
    match digitVal c with
    | some d => digitsToNat cs (10 * acc + d)
    | none => none

/-- The integer conversion argparse applies for a flag declared with the int
type: an optional sign followed by at least one decimal digit. -/
def pyInt (s : String) : Option Int :=
  match s.toList with
  | [] => none
  | '-' :: cs =>
    if cs = [] then none else (digitsToNat cs 0).map (fun n => -(n : Int))
  | '+' :: cs =>
    if cs = [] then none else (digitsToNat cs 0).map (fun n => (n : Int))
  | cs => (digitsToNat cs 0).map (fun n => (n : Int))

/-- Model of the argparse phase: all eight flags are required and
`--smtp_port` must convert to an integer; otherwise parsing fails. -/
def parseArgs (argv : List (String × String)) : Option Args :=
  (lookupFlag "--smtp_server" argv).bind fun server =>
    (lookupFlag "--smtp_port" argv).bind fun portStr =>
      (pyInt portStr).bind fun port =>
        (lookupFlag "--smtp_user" argv).bind fun user =>
          (lookupFlag "--smtp_password" argv).bind fun password =>
            (lookupFlag "--from_email" argv).bind fun fromEmail =>
              (lookupFlag "--to_email" argv).bind fun toEmail =>
                (lookupFlag "--subject" argv).bind fun subj =>
                  (lookupFlag "--body" argv).bind fun bodyText =>
                    some ⟨server, port, user, password, fromEmail, toEmail,
                      subj, bodyText⟩

/-- The usage text argparse writes to stderr before exiting with status 2. -/
def usageMessage : String :=
  "usage: send_mail.py [-h] --smtp_server SMTP_SERVER --smtp_port SMTP_PORT "
    ++ "--smtp_user SMTP_USER --smtp_password SMTP_PASSWORD "
    ++ "--from_email FROM_EMAIL --to_email TO_EMAIL --subject SUBJECT --body BODY"

/-- A MIME message: its ordered header fields and its attached parts, a part
being a MIME subtype paired with its payload text. -/
structure MIMEMessage where
  headers : List (String × String)
  parts : List (String × String)
deriving DecidableEq

/-- `MIMEMultipart()` (line 20): the constructor installs the Content-Type
and MIME-Version headers; the boundary parameter is chosen only at
serialization time. -/
def MIMEMultipart_init : MIMEMessage :=
  ⟨[("Content-Type", "multipart/mixed"), ("MIME-Version", "1.0")], []⟩

/-- `msg[k] = v` (lines 21-23): append a header field. -/
def MIMEMessage.setHeader (m : MIMEMessage) (k v : String) : MIMEMessage :=
  { m with headers := m.headers ++ [(k, v)] }

/-- `msg.attach(part)` (line 24): append a part. -/
def MIMEMessage.attach (m : MIMEMessage) (p : String × String) : MIMEMessage :=
  { m with parts := m.parts ++ [p] }

/-- `MIMEText(text, subtype)`: a typed text part. -/
def MIMEText_mk (text subtype : String) : String × String := (subtype, text)

/-- Lines 20-24: build the message from the parsed arguments. -/
def buildMsg (a : Args) : MIMEMessage :=
  (((MIMEMultipart_init.setHeader "From" a.from_email).setHeader
      "To" a.to_email).setHeader "Subject" a.subject).attach
    (MIMEText_mk a.body "plain")

/-- The boundary the email generator draws when the message carries none:
fifteen equals signs, a random number, two equals signs. -/
def makeBoundary (r : Nat) : String :=
  "===============" ++ toString r ++ "=="

/-- Render one header field line. -/
def renderHeader (p : String × String) : String :=
  p.1 ++ ": " ++ p.2 ++ "\n"

/-- Render one attached part, delimited by the boundary. -/
def renderPart (boundary : String) (p : String × String) : String :=
  "--" ++ boundary ++ "\nContent-Type: text/" ++ p.1
    ++ "; charset=\"us-ascii\"\nMIME-Version: 1.0\n"
    ++ "Content-Transfer-Encoding: 7bit\n\n" ++ p.2 ++ "\n"

/-- `msg.as_string()` (line 30): flatten the message, adding the drawn
boundary as a parameter of the Content-Type header and between the parts. -/
def MIMEMessage.as_string (m : MIMEMessage) (boundary : String) : String :=
  String.join (m.headers.map fun p =>
      if p.1 = "Content-Type" then
        p.1 ++ ": " ++ p.2 ++ "; boundary=\"" ++ boundary ++ "\"\n"
      else renderHeader p)
    ++ "\n"
    ++ String.join (m.parts.map (renderPart boundary))
    ++ "--" ++ boundary ++ "--\n"

/-- One network-visible operation of the transport phase (lines 28-31). -/
inductive NetOp
  | connectSSL (host : String) (port : Int)
  | login (user password : String)
  | sendmail (envFrom envTo data : String)
  | quit
deriving DecidableEq

/-- Oracle for the environment: for each fallible operation, the exception it
raises when executed (`none` = it succeeds). `buildExc` covers the message
construction (lines 20-24, outside the try block); the other four cover the
operations inside the try block, in program order. -/
structure Behavior where
  buildExc : Option String
  connectExc : Option String
  loginExc : Option String
  sendExc : Option String
  quitExc : Option String
deriving DecidableEq

/-- The try block, lines 28-31: `SMTP_SSL`, `login`, `sendmail`, `quit` run
in order; the first raised exception stops the sequence. Returns the trace of
operations executed and the exception, if any, that reached the except
clause. -/
def transportPhase (β : Behavior) (a : Args) (data : String) :
    List NetOp × Option String :=
  match β.connectExc with
  | some e => ([NetOp.connectSSL a.smtp_server a.smtp_port], some e)
  | none =>
    match β.loginExc with
    | some e => ([NetOp.connectSSL a.smtp_server a.smtp_port,
                  NetOp.login a.smtp_user a.smtp_password], some e)
    | none =>
      match β.sendExc with
      | some e => ([NetOp.connectSSL a.smtp_server a.smtp_port,
                    NetOp.login a.smtp_user a.smtp_password,
                    NetOp.sendmail a.from_email a.to_email data], some e)
      | none =>
        match β.quitExc with
        | some e => ([NetOp.connectSSL a.smtp_server a.smtp_port,
                      NetOp.login a.smtp_user a.smtp_password,
                      NetOp.sendmail a.from_email a.to_email data,
                      NetOp.quit], some e)
        | none => ([NetOp.connectSSL a.smtp_server a.smtp_port,
                    NetOp.login a.smtp_user a.smtp_password,
                    NetOp.sendmail a.from_email a.to_email data,
                    NetOp.quit], none)

/-- Observable outcome of one process invocation. -/
structure RunResult where
  exitCode : Nat
  stdoutLines : List String
  stderrLines : List String
  netTrace : List NetOp
deriving DecidableEq

/-- The diagnostic the except clause prints (line 33). -/
def failMsg (e : String) : String := "Failed to send email: " ++ e

/-- The report the interpreter writes to stderr for an uncaught exception
before exiting with status 1. -/
def tracebackMsg (e : String) : String :=
  "Traceback (most recent call last):\n" ++ e

/-- Lines 32-33: the except clause turns an escaped exception into one
stderr line; either way the program falls off the end and exits 0. -/
def reportResult (tr : List NetOp × Option String) : RunResult :=
  match tr.2 with
  | none => ⟨0, [], [], tr.1⟩
  | some e => ⟨0, [], [failMsg e], tr.1⟩

/-- The whole script: parse (usage error exits 2 with no network activity),
build the message (an exception here is uncaught: traceback, exit 1), then
the try/except around the transport phase. `seed` is the random state the
email generator draws the boundary from at line 30. -/
def runProgram (β : Behavior) (seed : Nat) (argv : List (String × String)) :
    RunResult :=
  match parseArgs argv with
  | none => ⟨2, [], [usageMessage], []⟩
  | some a =>
    match β.buildExc with
    | some e => ⟨1, [], [tracebackMsg e], []⟩
    | none =>
      reportResult (transportPhase β a ((buildMsg a).as_string (makeBoundary seed)))

/-- The four transport operations in program order, fully successful. -/
def fullTrace (a : Args) (data : String) : List NetOp :=
  [NetOp.connectSSL a.smtp_server a.smtp_port,
   NetOp.login a.smtp_user a.smtp_password,
   NetOp.sendmail a.from_email a.to_email data,
   NetOp.quit]

/-- Behavior in which every operation succeeds. -/
def allOk : Behavior := ⟨none, none, none, none, none⟩

/-- Behavior in which the server rejects authentication. -/
def authRejected : Behavior := ⟨none, none, some "535 authentication failed", none, none⟩

/-- Behavior in which the TCP connection is refused. -/
def connectRefused : Behavior := ⟨none, some "Connection refused", none, none, none⟩

/-- Behavior in which only the closing `quit` raises. -/
def quitFails : Behavior := ⟨none, none, none, none, some "connection reset"⟩

/-- Behavior in which message construction raises. -/
def buildBlows : Behavior := ⟨some "UnicodeEncodeError", none, none, none, none⟩

/-- A complete, well-formed command line. -/
def argv0 : List (String × String) :=
  [("--smtp_server", "mail.example.com"), ("--smtp_port", "465"),
   ("--smtp_user", "a@example.com"), ("--smtp_password", "secret"),
   ("--from_email", "a@example.com"), ("--to_email", "b@example.com"),
   ("--subject", "Hi"), ("--body", "Hello")]

/-- The configuration `argv0` parses to. -/
def args0 : Args :=
  ⟨"mail.example.com", 465, "a@example.com", "secret",
   "a@example.com", "b@example.com", "Hi", "Hello"⟩

/-- Like `args0` but with different server, port and credentials. -/
def args1 : Args :=
  ⟨"smtp.other.net", 587, "other-user", "hunter2",
   "a@example.com", "b@example.com", "Hi", "Hello"⟩

/-- A command line supplying every flag but with an empty subject value. -/
def argvEmptySubject : List (String × String) :=
  [("--smtp_server", "mail.example.com"), ("--smtp_port", "465"),
   ("--smtp_user", "a@example.com"), ("--smtp_password", "secret"),
   ("--from_email", "a@example.com"), ("--to_email", "b@example.com"),
   ("--subject", ""), ("--body", "Hello")]

/-- The configuration `argvEmptySubject` parses to. -/
def argsEmptySubject : Args :=
  ⟨"mail.example.com", 465, "a@example.com", "secret",
   "a@example.com", "b@example.com", "", "Hello"⟩

/-! ## Helper lemmas -/

theorem bind_none_of {α β : Type} (o : Option α) (f : α → Option β)
    (h : ∀ x, f x = none) : o.bind f = none := by
  cases o <;> simp [Option.bind, h]

theorem parseArgs_eq_none_of_missing (argv : List (String × String))
    (h : lookupFlag "--smtp_server" argv = none ∨
         lookupFlag "--smtp_port" argv = none ∨
         lookupFlag "--smtp_user" argv = none ∨
         lookupFlag "--smtp_password" argv = none ∨
         lookupFlag "--from_email" argv = none ∨
         lookupFlag "--to_email" argv = none ∨
         lookupFlag "--subject" argv = none ∨
         lookupFlag "--body" argv = none) :
    parseArgs argv = none := by
  unfold parseArgs
  rcases h with h | h | h | h | h | h | h | h <;>
    repeat first
      | (rw [h]; rfl)
      | (apply bind_none_of; intro _)

theorem runProgram_eq_report (β : Behavior) (seed : Nat)
    (argv : List (String × String)) (a : Args)
    (hp : parseArgs argv = some a) (hb : β.buildExc = none) :
    runProgram β seed argv =
      reportResult (transportPhase β a ((buildMsg a).as_string (makeBoundary seed))) := by
  simp [runProgram, hp, hb]

/-! ## Claims -/

/-- C1: for every invocation in which argument parsing succeeds (and message
construction does not itself raise), any failure during the transport phase
(connection, authentication, transmission, or session close) is caught: the
process exits with status 0 and stderr is exactly one line beginning with
"Failed to send email:". -/
theorem sendmail_transport_failure_swallowed (β : Behavior) (seed : Nat)
    (argv : List (String × String)) (a : Args)
    (hp : parseArgs argv = some a) (hb : β.buildExc = none)
    (hf : β.connectExc ≠ none ∨ β.loginExc ≠ none ∨ β.sendExc ≠ none ∨
          β.quitExc ≠ none) :
    (runProgram β seed argv).exitCode = 0 ∧
    ∃ e, (runProgram β seed argv).stderrLines = ["Failed to send email: " ++ e] := by
  rw [runProgram_eq_report β seed argv a hp hb]
  obtain ⟨bx, cx, lx, sx, qx⟩ := β
  rcases cx with _ | e1 <;> rcases lx with _ | e2 <;> rcases sx with _ | e3 <;>
    rcases qx with _ | e4 <;>
    simp_all [transportPhase, reportResult, failMsg]

theorem sendmail_transport_failure_swallowed_witness :
    (runProgram authRejected 0 argv0).exitCode = 0 ∧
    ∃ e, (runProgram authRejected 0 argv0).stderrLines =
      ["Failed to send email: " ++ e] :=
  sendmail_transport_failure_swallowed authRejected 0 argv0 args0 (by decide)
    rfl (Or.inr (Or.inl (by simp [authRejected])))

/-- C2: omitting any one of the eight required flags makes the process print
the usage message to stderr, exit with a non-zero status, and perform no
network activity. -/
theorem sendmail_required_flags (β : Behavior) (seed : Nat)
    (argv : List (String × String))
    (h : lookupFlag "--smtp_server" argv = none ∨
         lookupFlag "--smtp_port" argv = none ∨
         lookupFlag "--smtp_user" argv = none ∨
         lookupFlag "--smtp_password" argv = none ∨
         lookupFlag "--from_email" argv = none ∨
         lookupFlag "--to_email" argv = none ∨
         lookupFlag "--subject" argv = none ∨
         lookupFlag "--body" argv = none) :
    (runProgram β seed argv).exitCode ≠ 0 ∧
    (runProgram β seed argv).stderrLines = [usageMessage] ∧
    (runProgram β seed argv).netTrace = [] := by
  have hp := parseArgs_eq_none_of_missing argv h
  simp [runProgram, hp]

theorem sendmail_required_flags_witness :
    (runProgram allOk 0 []).exitCode ≠ 0 ∧
    (runProgram allOk 0 []).stderrLines = [usageMessage] ∧
    (runProgram allOk 0 []).netTrace = [] :=
  sendmail_required_flags allOk 0 [] (Or.inl rfl)

/-- C3: the built message is a multipart envelope whose From, To, Subject
header fields are exactly the supplied values, unvalidated and unaltered, and
whose single attached part is a plain-text part whose content is exactly the
supplied body. -/
theorem sendmail_message_verbatim (a : Args) :
    (buildMsg a).headers =
      [("Content-Type", "multipart/mixed"), ("MIME-Version", "1.0"),
       ("From", a.from_email), ("To", a.to_email), ("Subject", a.subject)] ∧
    (buildMsg a).parts = [("plain", a.body)] := by
  simp [buildMsg, MIMEMultipart_init, MIMEMessage.setHeader, MIMEMessage.attach,
    MIMEText_mk]

/-- C4: when parsing succeeds (and construction does not raise), the
transport phase performs the four operations connect-SSL, login, sendmail
(envelope sender from_email, envelope recipient to_email, data the serialized
message), quit, in that order and nothing else: the executed trace is always
an initial segment of that sequence, and is the whole sequence when no
operation fails. -/
theorem sendmail_transport_order (β : Behavior) (seed : Nat)
    (argv : List (String × String)) (a : Args)
    (hp : parseArgs argv = some a) (hb : β.buildExc = none) :
    (∃ n, (runProgram β seed argv).netTrace =
      (fullTrace a ((buildMsg a).as_string (makeBoundary seed))).take n) ∧
    (β.connectExc = none → β.loginExc = none → β.sendExc = none →
      β.quitExc = none →
      (runProgram β seed argv).netTrace =
        fullTrace a ((buildMsg a).as_string (makeBoundary seed))) := by
  rw [runProgram_eq_report β seed argv a hp hb]
  obtain ⟨bx, cx, lx, sx, qx⟩ := β
  rcases cx with _ | e1 <;> rcases lx with _ | e2 <;> rcases sx with _ | e3 <;>
    rcases qx with _ | e4 <;>
    refine ⟨?_, ?_⟩ <;>
    first
      | exact ⟨1, rfl⟩
      | exact ⟨2, rfl⟩
      | exact ⟨3, rfl⟩
      | exact ⟨4, rfl⟩
      | (intro h1 h2 h3 h4; first | rfl | simp_all)

theorem sendmail_transport_order_witness :
    (∃ n, (runProgram allOk 0 argv0).netTrace =
      (fullTrace args0 ((buildMsg args0).as_string (makeBoundary 0))).take n) ∧
    (allOk.connectExc = none → allOk.loginExc = none → allOk.sendExc = none →
      allOk.quitExc = none →
      (runProgram allOk 0 argv0).netTrace =
        fullTrace args0 ((buildMsg args0).as_string (makeBoundary 0))) :=
  sendmail_transport_order allOk 0 argv0 args0 (by decide) rfl

/-- C5 counterexample: serialization is not a function of the eight input
fields alone: from the same configuration, two different boundary draws give
different bytes, so two builds are byte-identical only when the random
boundary happens to coincide. -/
theorem sendmail_serialization_boundary_dependent :
    (buildMsg args0).as_string (makeBoundary 0) ≠
      (buildMsg args0).as_string (makeBoundary 1) := by decide

/-- C5 amended: the serialized message is a deterministic function of the
four message fields (from_email, to_email, subject, body) together with the
drawn boundary: two configurations agreeing on those fields serialize to
byte-identical output under the same boundary, whatever their server, port
and credential fields. -/
theorem sendmail_serialization_deterministic (a1 a2 : Args) (b : String)
    (h1 : a1.from_email = a2.from_email) (h2 : a1.to_email = a2.to_email)
    (h3 : a1.subject = a2.subject) (h4 : a1.body = a2.body) :
    (buildMsg a1).as_string b = (buildMsg a2).as_string b := by
  simp [buildMsg, MIMEMessage.as_string, MIMEMultipart_init,
    MIMEMessage.setHeader, MIMEMessage.attach, MIMEText_mk, renderHeader,
    renderPart, h1, h2, h3, h4]

theorem sendmail_serialization_deterministic_witness :
    (buildMsg args0).as_string "BOUNDARY" =
      (buildMsg args1).as_string "BOUNDARY" :=
  sendmail_serialization_deterministic args0 args1 "BOUNDARY" rfl rfl rfl rfl

/-- C6 counterexample: the parser does not enforce non-emptiness: a command
line supplying every flag but an empty subject value parses successfully and
the message is constructed with an empty Subject field. -/
theorem sendmail_empty_field_accepted :
    parseArgs argvEmptySubject = some argsEmptySubject ∧
    argsEmptySubject.subject = "" ∧
    ("Subject", "") ∈ (buildMsg argsEmptySubject).headers := by
  refine ⟨by decide, rfl, by decide⟩

/-- C6 amended: every field of a successfully parsed configuration is
present and equal to the value supplied for its flag, verbatim (the parser
requires each flag to be supplied but does not reject empty values). -/
theorem sendmail_parsed_fields_verbatim (argv : List (String × String))
    (a : Args) (h : parseArgs argv = some a) :
    lookupFlag "--smtp_server" argv = some a.smtp_server ∧
    (∃ p, lookupFlag "--smtp_port" argv = some p ∧ pyInt p = some a.smtp_port) ∧
    lookupFlag "--smtp_user" argv = some a.smtp_user ∧
    lookupFlag "--smtp_password" argv = some a.smtp_password ∧
    lookupFlag "--from_email" argv = some a.from_email ∧
    lookupFlag "--to_email" argv = some a.to_email ∧
    lookupFlag "--subject" argv = some a.subject ∧
    lookupFlag "--body" argv = some a.body := by
  simp only [parseArgs, Option.bind_eq_some, Option.some.injEq] at h
  obtain ⟨sv, hsv, ps, hps, pt, hpt, us, hus, pw, hpw, fe, hfe, te, hte, su,
    hsu, bd, hbd, hfin⟩ := h
  subst hfin
  exact ⟨hsv, ⟨ps, hps, hpt⟩, hus, hpw, hfe, hte, hsu, hbd⟩

theorem sendmail_parsed_fields_verbatim_witness :
    lookupFlag "--smtp_server" argvEmptySubject = some argsEmptySubject.smtp_server ∧
    (∃ p, lookupFlag "--smtp_port" argvEmptySubject = some p ∧
      pyInt p = some argsEmptySubject.smtp_port) ∧
    lookupFlag "--smtp_user" argvEmptySubject = some argsEmptySubject.smtp_user ∧
    lookupFlag "--smtp_password" argvEmptySubject = some argsEmptySubject.smtp_password ∧
    lookupFlag "--from_email" argvEmptySubject = some argsEmptySubject.from_email ∧
    lookupFlag "--to_email" argvEmptySubject = some argsEmptySubject.to_email ∧
    lookupFlag "--subject" argvEmptySubject = some argsEmptySubject.subject ∧
    lookupFlag "--body" argvEmptySubject = some argsEmptySubject.body :=
  sendmail_parsed_fields_verbatim argvEmptySubject argsEmptySubject (by decide)

/-- C7: the quit operation is executed only on the success path: whenever
the connection, authentication or send operation fails, quit is not in the
trace; and when parsing succeeds and every earlier operation succeeds, quit
is executed after the send. -/
theorem sendmail_quit_success_only (β : Behavior) (seed : Nat)
    (argv : List (String × String)) :
    ((β.connectExc ≠ none ∨ β.loginExc ≠ none ∨ β.sendExc ≠ none) →
      NetOp.quit ∉ (runProgram β seed argv).netTrace) ∧
    (∀ a, parseArgs argv = some a → β.buildExc = none → β.connectExc = none →
      β.loginExc = none → β.sendExc = none →
      NetOp.quit ∈ (runProgram β seed argv).netTrace) := by
  obtain ⟨bx, cx, lx, sx, qx⟩ := β
  rcases hpa : parseArgs argv with _ | a <;>
    rcases bx with _ | e0 <;> rcases cx with _ | e1 <;> rcases lx with _ | e2 <;>
    rcases sx with _ | e3 <;> rcases qx with _ | e4 <;>
    constructor <;>
    (intro hf; simp_all [runProgram, transportPhase, reportResult])

theorem sendmail_quit_success_only_witness :
    NetOp.quit ∉ (runProgram connectRefused 0 argv0).netTrace ∧
    NetOp.quit ∈ (runProgram allOk 0 argv0).netTrace :=
  ⟨(sendmail_quit_success_only connectRefused 0 argv0).1
      (Or.inl (by simp [connectRefused])),
   (sendmail_quit_success_only allOk 0 argv0).2 args0 (by decide) rfl rfl rfl rfl⟩

/-- C8: the program never writes to standard output, and on a fully
successful run it produces no output at all. -/
theorem sendmail_no_stdout (β : Behavior) (seed : Nat)
    (argv : List (String × String)) :
    (runProgram β seed argv).stdoutLines = [] ∧
    (∀ a, parseArgs argv = some a → β.buildExc = none → β.connectExc = none →
      β.loginExc = none → β.sendExc = none → β.quitExc = none →
      (runProgram β seed argv).stderrLines = []) := by
  obtain ⟨bx, cx, lx, sx, qx⟩ := β
  rcases hpa : parseArgs argv with _ | a <;>
    rcases bx with _ | e0 <;> rcases cx with _ | e1 <;> rcases lx with _ | e2 <;>
    rcases sx with _ | e3 <;> rcases qx with _ | e4 <;>
    refine ⟨by simp [runProgram, hpa, transportPhase, reportResult], ?_⟩ <;>
    (intro a2 h1 h2 h3 h4 h5 h6
     simp_all [runProgram, transportPhase, reportResult])

theorem sendmail_no_stdout_witness :
    (runProgram allOk 0 argv0).stdoutLines = [] ∧
    (runProgram allOk 0 argv0).stderrLines = [] :=
  ⟨(sendmail_no_stdout allOk 0 argv0).1,
   (sendmail_no_stdout allOk 0 argv0).2 args0 (by decide) rfl rfl rfl rfl rfl⟩

/-- C9: there is an execution in which the send succeeds (the sendmail
operation is executed and raises nothing, so the message reached the server)
and the later quit raises, so the failure diagnostic is printed anyway: the
diagnostic does not imply the message was not sent. -/
theorem sendmail_diagnostic_despite_delivery :
    NetOp.sendmail args0.from_email args0.to_email
        ((buildMsg args0).as_string (makeBoundary 0)) ∈
      (runProgram quitFails 0 argv0).netTrace ∧
    quitFails.sendExc = none ∧
    (runProgram quitFails 0 argv0).stderrLines =
      [failMsg "connection reset"] := by
  have hp : parseArgs argv0 = some args0 := by decide
  rw [runProgram_eq_report quitFails 0 argv0 args0 hp rfl]
  refine ⟨?_, rfl, ?_⟩ <;>
    simp [quitFails, transportPhase, reportResult, failMsg]

theorem reportResult_exitCode (tr : List NetOp × Option String) :
    (reportResult tr).exitCode = 0 := by
  rcases tr with ⟨t, _ | e⟩ <;> rfl

/-- C10: the except clause catches every exception raised inside the try
block, whatever the four transport operations do, so the process still exits
0; but an exception raised during message construction, which runs before
the try block, is uncaught: traceback on stderr, exit status 1, no network
operation attempted, even though parsing succeeded. -/
theorem sendmail_construction_uncaught (β γ : Behavior) (seed : Nat)
    (argv : List (String × String)) (a : Args) (e : String)
    (hp : parseArgs argv = some a) (hb : β.buildExc = some e)
    (hg : γ.buildExc = none) :
    (runProgram β seed argv).exitCode = 1 ∧
    (runProgram β seed argv).stderrLines = [tracebackMsg e] ∧
    (runProgram β seed argv).netTrace = [] ∧
    (runProgram γ seed argv).exitCode = 0 := by
  refine ⟨by simp [runProgram, hp, hb], by simp [runProgram, hp, hb],
    by simp [runProgram, hp, hb], ?_⟩
  rw [runProgram_eq_report γ seed argv a hp hg]
  exact reportResult_exitCode _

theorem sendmail_construction_uncaught_witness :
    (runProgram buildBlows 0 argv0).exitCode = 1 ∧
    (runProgram buildBlows 0 argv0).stderrLines =
      [tracebackMsg "UnicodeEncodeError"] ∧
    (runProgram buildBlows 0 argv0).netTrace = [] ∧
    (runProgram authRejected 0 argv0).exitCode = 0 :=
  sendmail_construction_uncaught buildBlows authRejected 0 argv0 args0
    "UnicodeEncodeError" (by decide) rfl rfl
